import Mathlib

/-!
Verification of the prop-bet analyzer's projection and scoring engines.

The development shallowly embeds the three analytical modules of the
backend (`app/core/analysis_engine.py`, `app/core/halftime_engine.py`,
`app/core/game_totals_engine.py`) over exact rational arithmetic.  Python
floats are modelled by `ℚ`; Python's banker-rounding `round(x)` and
`round(x, n)` are modelled decimally by `pyRound`/`pyRound1`/`pyRound2`;
Python `None` and falsiness of optional numbers are modelled by `Option ℚ`
together with `optTruthy`.  Collaborator calls (season stats, team
ratings, live snapshots) are modelled as already-materialized inputs;
a collaborator failure that the code catches is the `none` case of the
corresponding `Option`-valued input.
-/

/-- Round-half-to-even on rationals: the behaviour of Python's builtin
`round` on exact half-integers, and ordinary nearest-integer rounding
elsewhere. -/
def pyRound (q : ℚ) : ℤ :=
  if q.den = 2 then (if Int.floor q % 2 = 0 then Int.floor q else Int.floor q + 1)
  else round q

/-- Python `round(x, 1)` modelled decimally. -/
def pyRound1 (q : ℚ) : ℚ := (pyRound (10 * q) : ℚ) / 10

/-- Python `round(x, 2)` modelled decimally. -/
def pyRound2 (q : ℚ) : ℚ := (pyRound (100 * q) : ℚ) / 100

/-- Python `round(x, 3)` modelled decimally. -/
def pyRound3 (q : ℚ) : ℚ := (pyRound (1000 * q) : ℚ) / 1000

/-- Python truthiness of an optional number: `None` and `0` are falsy. -/
def optTruthy (o : Option ℚ) : Bool :=
  match o with
  | none => false
  | some x => if x = 0 then false else true

/-- Python truthiness of an optional integer id: `None` and `0` are falsy;
returns the id exactly when it is truthy. -/
def natTruthy (o : Option ℕ) : Option ℕ :=
  match o with
  | none => none
  | some n => if n = 0 then none else some n

/-- Python `f"{x:.0f}"`: format with no decimal places. -/
def fmt0 (q : ℚ) : String := toString (pyRound q)

/-- Python `f"{x:.1f}"`: format with one decimal place. -/
def fmt1 (q : ℚ) : String :=
  let n := pyRound (10 * q)
  let sign := if n < 0 then "-" else ""
  sign ++ toString (n.natAbs / 10) ++ "." ++ toString (n.natAbs % 10)

namespace AnalysisEngine

/-!
Embedding of `app/core/analysis_engine.py` (class `AnalysisEngine`,
called `PropHistoryAnalyzer` in the specification).

A recent-game record is modelled by the two dictionary accesses the
analyzer performs on it: the value stored under the prop's stat key
(`StatEntry`, distinguishing a missing key, an explicit null, and a
numeric value, because `game.get(stat_key, 0)` and the
`game.get(stat_key) is not None` guard treat a missing key differently),
and the parsed minutes under the key `min` (`none` when the key is
missing or falsy, mirroring the `if game.get('min')` guard; the
string-to-float parsing of `"MM:SS"` happens before the embedding).
-/

/-- Value stored in one game record under the prop's stat key. -/
inductive StatEntry where
  | missing
  | null
  | val (x : ℚ)
deriving DecidableEq

/-- Models `game.get(stat_key, 0)` followed by the `is not None` test:
a missing key yields `0` (which is not `None`), an explicit null yields
`none`, a value yields itself. -/
def StatEntry.getD0 : StatEntry → Option ℚ
  | .missing => some 0
  | .null => none
  | .val x => some x

/-- Models the comprehension guard `if game.get(stat_key) is not None`
used by `_analyze_factors`: both a missing key and an explicit null are
excluded. -/
def StatEntry.getOpt : StatEntry → Option ℚ
  | .missing => none
  | .null => none
  | .val x => some x

/-- One recent-game record, restricted to the fields the analyzer reads. -/
structure GameRow where
  stat : StatEntry
  minutes : Option ℚ
deriving DecidableEq

/-- Mirror of the dataclass `PropBetData` (the fields the analysis reads;
`game_date` is never read by the engine and is omitted). -/
structure PropBetData where
  prop_id : ℕ
  player_name : String
  player_id : Option ℕ
  stat_type : String
  line : ℚ
  over_under : String
  opponent_name : Option String

/-- The factors dictionary built by `_analyze_factors`: `recent_trend`,
`consistency` and `playing_time` are only present when data supports
them; `home_away` and `rest` are always set to the neutral `0.0`. -/
structure Factors where
  recent_trend : Option ℚ
  consistency : Option ℚ
  home_away : ℚ
  rest : ℚ
  playing_time : Option ℚ

/-- Mirror of the dataclass `PropAnalysis`.  The default analysis carries
an empty factors dictionary, modelled by `none`. -/
structure PropAnalysis where
  prop_id : ℕ
  player_name : String
  stat_type : String
  line : ℚ
  over_under : String
  confidence_score : ℚ
  hit_rate_last_10 : ℚ
  average_stat : ℚ
  opponent_defensive_rank : Option ℕ
  pace_adjusted_projection : ℚ
  factors : Option Factors
  recommendation : String
  analysis_notes : String

/-- Models `factors.get(k, 0)`. -/
def Factors.get (f : Factors) (k : String) : ℚ :=
  if k = "recent_trend" then f.recent_trend.getD 0
  else if k = "consistency" then f.consistency.getD 0
  else if k = "home_away" then f.home_away
  else if k = "rest" then f.rest
  else if k = "playing_time" then f.playing_time.getD 0
  else 0

/-- Loop body of `_calculate_hit_rate`: the accumulator is the pair
`(hits, valid_games)`. -/
def hit_rate_step (over_under : String) (line : ℚ) (acc : ℕ × ℕ) (v : Option ℚ) : ℕ × ℕ :=
  match v with
  | none => acc
  | some x =>
      ((if over_under = "over" ∧ line < x then acc.1 + 1
        else if over_under = "under" ∧ x < line then acc.1 + 1
        else acc.1),
       acc.2 + 1)

/-- Embeds `AnalysisEngine._calculate_hit_rate`.  The stat values passed
in are the per-game results of `game.get(stat_key, 0)` (see
`StatEntry.getD0`). -/
def calculate_hit_rate (games : List (Option ℚ)) (over_under : String) (line : ℚ) : ℚ :=
  let hv := games.foldl (hit_rate_step over_under line) (0, 0)
  if 0 < hv.2 then (hv.1 : ℚ) / (hv.2 : ℚ) * 100 else 0

/-- Embeds `AnalysisEngine._calculate_average_stat` (`np.mean` of the
valid values, `0` when there are none). -/
def calculate_average_stat (games : List (Option ℚ)) : ℚ :=
  let values := games.filterMap id
  if values = [] then 0 else values.sum / values.length

/-- Leading coefficient of `np.polyfit(range(len(ys)), ys, 1)`: the exact
least-squares slope.  For a degenerate system (fewer than two points) the
minimum-norm solution has slope `0`. -/
def polyfit_slope (ys : List ℚ) : ℚ :=
  let n : ℚ := ys.length
  let xs : List ℚ := (List.range ys.length).map (fun i => (i : ℚ))
  let sx := xs.sum
  let sy := ys.sum
  let sxy := ((xs.zip ys).map (fun p => p.1 * p.2)).sum
  let sxx := (xs.map (fun x => x * x)).sum
  if n * sxx - sx * sx = 0 then 0 else (n * sxy - sx * sy) / (n * sxx - sx * sx)

/-- Population variance `np.var` of a list of rationals. -/
def np_var (xs : List ℚ) : ℚ :=
  if xs = [] then 0
  else
    let m := xs.sum / xs.length
    ((xs.map (fun x => (x - m) * (x - m))).sum) / xs.length

/-- Embeds `AnalysisEngine._analyze_factors`.  The `try`/`except` around
the minutes parsing cannot fail in the embedding because the minutes come
in already parsed. -/
def analyze_factors (games : List GameRow) : Factors :=
  let recent_trend :=
    if 5 ≤ games.length then
      let recent_stats := (games.take 5).filterMap (fun g => g.stat.getOpt)
      if recent_stats = [] then none
      else some (min (max (polyfit_slope recent_stats / 5) (-1)) 1)
    else none
  let stats := games.filterMap (fun g => g.stat.getOpt)
  let consistency := if stats = [] then none else some (1 - min (np_var stats / 50) 1)
  let mins := games.filterMap (fun g => g.minutes)
  let playing_time :=
    if mins = [] then none else some (min (mins.sum / mins.length / 35) 1)
  { recent_trend := recent_trend, consistency := consistency,
    home_away := 0, rest := 0, playing_time := playing_time }

/-- The `factor_weights` table of `AnalysisEngine._calculate_confidence`. -/
def factor_weights : List (String × ℚ) :=
  [("recent_trend", 8), ("consistency", 10), ("home_away", 5), ("rest", 3), ("playing_time", 8)]

/-- Embeds `AnalysisEngine._calculate_confidence` (`np.clip(c, 0, 100)` is
`min (max c 0) 100`). -/
def calculate_confidence (hit_rate : ℚ) (factors : Factors) (avg_stat line : ℚ) : ℚ :=
  let distance_from_line := |avg_stat - line|
  let distance_boost :=
    if line < avg_stat then min (distance_from_line * 2) 10
    else -(min (distance_from_line * 2) 10)
  let factor_adjustment := (factor_weights.map (fun kv => factors.get kv.1 * kv.2)).sum
  min (max (hit_rate + distance_boost + factor_adjustment) 0) 100

/-- Embeds `AnalysisEngine._generate_recommendation` (the `over_under`
argument is unused by the code). -/
def generate_recommendation (confidence : ℚ) (_over_under : String) : String :=
  if 70 ≤ confidence then "strong_bet"
  else if 58 ≤ confidence then "bet"
  else if 45 ≤ confidence then "neutral"
  else if 30 ≤ confidence then "avoid"
  else "strong_avoid"

/-- Embeds `AnalysisEngine._generate_analysis_notes`. -/
def generate_analysis_notes (prop : PropBetData) (hit_rate average_stat : ℚ)
    (factors : Factors) : String :=
  let n1 :=
    if 70 ≤ hit_rate then
      "Player has hit this prop in " ++ fmt0 hit_rate ++ "% of last 10 games (strong track record)."
    else if 50 ≤ hit_rate then
      "Player has hit this prop in " ++ fmt0 hit_rate ++ "% of last 10 games (decent track record)."
    else
      "Player has only hit this prop in " ++ fmt0 hit_rate ++ "% of last 10 games (poor track record)."
  let n2 :=
    if prop.line < average_stat then
      "Player\x27s average (" ++ fmt1 average_stat ++ ") is " ++
        fmt1 (average_stat - prop.line) ++ " above the line."
    else if average_stat < prop.line then
      "Player\x27s average (" ++ fmt1 average_stat ++ ") is " ++
        fmt1 (prop.line - average_stat) ++ " below the line."
    else
      "Player\x27s average matches the line exactly."
  let trend_notes :=
    if (0.3 : ℚ) < factors.get "recent_trend" then ["Player is trending up recently."]
    else if factors.get "recent_trend" < -0.3 then ["Player is trending down recently."]
    else []
  let consistency_notes :=
    if (0.7 : ℚ) < factors.get "consistency" then ["Player has been very consistent."]
    else if factors.get "consistency" < 0.3 then ["Player\x27s performance has been inconsistent."]
    else []
  String.intercalate " " ([n1, n2] ++ trend_notes ++ consistency_notes)

/-- Embeds `AnalysisEngine._create_default_analysis`. -/
def create_default_analysis (prop : PropBetData) (reason : String) : PropAnalysis :=
  { prop_id := prop.prop_id
    player_name := prop.player_name
    stat_type := prop.stat_type
    line := prop.line
    over_under := prop.over_under
    confidence_score := 50
    hit_rate_last_10 := 50
    average_stat := prop.line
    opponent_defensive_rank := none
    pace_adjusted_projection := prop.line
    factors := none
    recommendation := "neutral"
    analysis_notes := "Unable to analyze: " ++ reason }

/-- Resolution of the player id at the top of `analyze_prop`: the prop's
own id when truthy, otherwise the id found by `search_player` (itself
possibly absent or falsy). -/
def resolve_player_id (prop_player_id search_result : Option ℕ) : Option ℕ :=
  match natTruthy prop_player_id with
  | some n => some n
  | none => natTruthy search_result

/-- Embeds `AnalysisEngine.analyze_prop`.  Collaborator results appear as
inputs: `search_result` is the id produced by `search_player` (when the
prop has no truthy id of its own), `recent_games` the list returned by
`get_player_stats`, and `opponent_found` the truthiness of
`search_team_by_name` for the prop's opponent. -/
def analyze_prop (prop : PropBetData) (search_result : Option ℕ)
    (recent_games : List GameRow) (opponent_found : Bool) : PropAnalysis :=
  match resolve_player_id prop.player_id search_result with
  | none => create_default_analysis prop "Player not found in database"
  | some _ =>
    if recent_games = [] then create_default_analysis prop "No recent game data available"
    else
      let stat_values := recent_games.map (fun g => g.stat.getD0)
      let hit_rate := calculate_hit_rate stat_values prop.over_under prop.line
      let average_stat := calculate_average_stat stat_values
      let opponent_rank : Option ℕ :=
        if prop.opponent_name.getD "" ≠ "" ∧ opponent_found then some 15 else none
      let pace_adjusted_projection := average_stat * 1
      let factors := analyze_factors recent_games
      let confidence := calculate_confidence hit_rate factors average_stat prop.line
      let recommendation := generate_recommendation confidence prop.over_under
      let notes := generate_analysis_notes prop hit_rate average_stat factors
      { prop_id := prop.prop_id
        player_name := prop.player_name
        stat_type := prop.stat_type
        line := prop.line
        over_under := prop.over_under
        confidence_score := pyRound2 confidence
        hit_rate_last_10 := pyRound2 hit_rate
        average_stat := pyRound2 average_stat
        opponent_defensive_rank := opponent_rank
        pace_adjusted_projection := pyRound2 pace_adjusted_projection
        factors := some factors
        recommendation := recommendation
        analysis_notes := notes }

end AnalysisEngine

namespace HalftimeEngine

/-!
Embedding of `app/core/halftime_engine.py` (class
`HalftimeAnalysisEngine`, called `LivePlayerProjector` in the
specification).  The configuration constants take their `getattr`
defaults since `app/config.py` defines neither `BLOWOUT_THRESHOLD` nor
`FOUL_TROUBLE_THRESHOLD`.
-/

def BLOWOUT_THRESHOLD : ℤ := 20

def FOUL_TROUBLE_THRESHOLD : ℕ := 3

def LEAGUE_AVG_PACE : ℚ := 100

def LEAGUE_AVG_TOTAL : ℚ := 225

def LEAGUE_AVG_OFF_RTG : ℚ := 114

def LEAGUE_AVG_DEF_RTG : ℚ := 114

/-- The `PROJECTION_WEIGHTS` table (module-level constant). -/
def PROJECTION_WEIGHTS : List (String × ℚ) :=
  [("first_half_trend", 0.18),
   ("shooting_efficiency", 0.18),
   ("shot_volume", 0.15),
   ("opponent_defense", 0.14),
   ("score_situation", 0.10),
   ("historical_2h_avg", 0.08),
   ("pace_adjustment", 0.07),
   ("plus_minus_factor", 0.05),
   ("utilization_rate", 0.03),
   ("fatigue_factor", 0.02)]

def Q3_PACE_FACTOR : ℚ := 0.92

def PACE_SUSTAINABILITY : ℚ := 0.95

/-- Mirror of the dataclass `ShootingMetrics` (fields carry the rounded
values the constructor call stores). -/
structure ShootingMetrics where
  fg_pct : ℚ
  fg3_pct : ℚ
  ft_pct : ℚ
  efg_pct : ℚ
  ts_pct : ℚ
  points_per_shot : ℚ

/-- The `efficiency_rating` property of `ShootingMetrics`. -/
def ShootingMetrics.efficiency_rating (m : ShootingMetrics) : String :=
  if 65 ≤ m.ts_pct then "elite"
  else if 58 ≤ m.ts_pct then "excellent"
  else if 52 ≤ m.ts_pct then "good"
  else if 45 ≤ m.ts_pct then "average"
  else "poor"

/-- Mirror of the dataclass `TeamRatings`. -/
structure TeamRatings where
  team_id : ℕ
  team_abbr : String
  off_rating : ℚ
  def_rating : ℚ
  pace : ℚ
  def_rank_pts : ℕ
  def_rank_reb : ℕ
  def_rank_ast : ℕ
  def_rank_3pm : ℕ

/-- The dataclass defaults of `TeamRatings`: league-average constants and
middle-of-the-pack ranks. -/
def default_team_ratings (team_id : ℕ) (team_abbr : String) : TeamRatings :=
  { team_id := team_id, team_abbr := team_abbr
    off_rating := LEAGUE_AVG_OFF_RTG, def_rating := LEAGUE_AVG_DEF_RTG
    pace := LEAGUE_AVG_PACE
    def_rank_pts := 15, def_rank_reb := 15, def_rank_ast := 15, def_rank_3pm := 15 }

/-- Field values a team-ratings fetch can extract from the external
`nba_api` tables when it succeeds. -/
structure FetchedTeamRatings where
  off_rating : ℚ
  def_rating : ℚ
  pace : ℚ
  def_rank_pts : ℕ
  def_rank_reb : ℕ
  def_rank_ast : ℕ
  def_rank_3pm : ℕ

/-- Models `HalftimeAnalysisEngine._get_team_ratings` at the collaborator
boundary: the body only manipulates external `nba_api` dataframes inside
a `try`/`except` whose every failure (including the timeout) leaves the
dataclass defaults standing.  A successful fetch is a `some` result of
the `fetch` input, any caught failure is `none`. -/
def get_team_ratings (fetch : ℕ → Option FetchedTeamRatings)
    (team_id : ℕ) (team_abbr : String) : TeamRatings :=
  match fetch team_id with
  | none => default_team_ratings team_id team_abbr
  | some r =>
    { team_id := team_id, team_abbr := team_abbr
      off_rating := r.off_rating, def_rating := r.def_rating, pace := r.pace
      def_rank_pts := r.def_rank_pts, def_rank_reb := r.def_rank_reb
      def_rank_ast := r.def_rank_ast, def_rank_3pm := r.def_rank_3pm }

/-- Mirror of the dataclass `LivePlayerStats` from
`app/services/live_data_client.py`, restricted to the fields the engines
read (the raw minutes string and the derived `fg_pct`/`fg3_pct`/`ft_pct`
fields are never read by the core and are omitted). -/
structure LivePlayerStats where
  player_id : ℕ
  player_name : String
  team_id : ℕ
  team_abbreviation : String
  minutes_float : ℚ
  points : ℕ
  rebounds : ℕ
  assists : ℕ
  steals : ℕ
  blocks : ℕ
  turnovers : ℕ
  fouls : ℕ
  fg_made : ℕ
  fg_attempted : ℕ
  fg3_made : ℕ
  fg3_attempted : ℕ
  ft_made : ℕ
  ft_attempted : ℕ
  plus_minus : ℤ
  starter : Bool

/-- Mirror of the dataclass `LiveGameData` from
`app/services/live_data_client.py` (without `game_time_utc`, never read
by the core). -/
structure LiveGameData where
  game_id : String
  game_status : ℤ
  game_status_text : String
  period : ℕ
  game_clock : String
  home_team_id : ℕ
  home_team_name : String
  home_team_abbr : String
  home_score : ℕ
  away_team_id : ℕ
  away_team_name : String
  away_team_abbr : String
  away_score : ℕ
  game_date : String
  is_halftime : Bool

/-- The `score_differential` property: absolute score difference. -/
def LiveGameData.score_differential (g : LiveGameData) : ℤ :=
  |(g.home_score : ℤ) - (g.away_score : ℤ)|

/-- The `total_score` property: combined score. -/
def LiveGameData.total_score (g : LiveGameData) : ℕ :=
  g.home_score + g.away_score

/-- Season averages returned by
`LiveDataClient.get_player_season_stats`, restricted to the keys
`analyze_halftime_player` reads.  The fetch as a whole is `Option`-valued
because the client returns `None` on failure and the caller additionally
catches exceptions. -/
structure SeasonStats where
  avg_points : Option ℚ
  avg_rebounds : Option ℚ
  avg_assists : Option ℚ
  second_half_avg_points : Option ℚ
  second_half_avg_rebounds : Option ℚ
  second_half_avg_assists : Option ℚ

/-- Embeds `HalftimeAnalysisEngine._get_stat_value`
(`stat_mapping.get(prop_type.lower(), 0)`). -/
def get_stat_value (stats : LivePlayerStats) (prop_type : String) : ℚ :=
  let k := prop_type.toLower
  if k = "points" then (stats.points : ℚ)
  else if k = "rebounds" then (stats.rebounds : ℚ)
  else if k = "assists" then (stats.assists : ℚ)
  else if k = "steals" then (stats.steals : ℚ)
  else if k = "blocks" then (stats.blocks : ℚ)
  else if k = "threes" then (stats.fg3_made : ℚ)
  else if k = "3pt" then (stats.fg3_made : ℚ)
  else if k = "turnovers" then (stats.turnovers : ℚ)
  else if k = "pts+reb" then ((stats.points : ℚ) + stats.rebounds)
  else if k = "pts+ast" then ((stats.points : ℚ) + stats.assists)
  else if k = "reb+ast" then ((stats.rebounds : ℚ) + stats.assists)
  else if k = "pts+reb+ast" then ((stats.points : ℚ) + stats.rebounds + stats.assists)
  else 0

/-- Embeds `HalftimeAnalysisEngine._calculate_shooting_metrics`. -/
def calculate_shooting_metrics (stats : LivePlayerStats) : ShootingMetrics :=
  let fg_pct := if 0 < stats.fg_attempted then (stats.fg_made : ℚ) / stats.fg_attempted * 100 else 0
  let fg3_pct := if 0 < stats.fg3_attempted then (stats.fg3_made : ℚ) / stats.fg3_attempted * 100 else 0
  let ft_pct := if 0 < stats.ft_attempted then (stats.ft_made : ℚ) / stats.ft_attempted * 100 else 0
  let efg_pct :=
    if 0 < stats.fg_attempted
    then ((stats.fg_made : ℚ) + 0.5 * stats.fg3_made) / stats.fg_attempted * 100 else 0
  let tsa := (stats.fg_attempted : ℚ) + 0.44 * stats.ft_attempted
  let ts_pct := if 0 < tsa then (stats.points : ℚ) / (2 * tsa) * 100 else 0
  let pps := if 0 < stats.fg_attempted then (stats.points : ℚ) / stats.fg_attempted else 0
  { fg_pct := pyRound1 fg_pct, fg3_pct := pyRound1 fg3_pct, ft_pct := pyRound1 ft_pct
    efg_pct := pyRound1 efg_pct, ts_pct := pyRound1 ts_pct, points_per_shot := pyRound2 pps }

/-- Embeds `HalftimeAnalysisEngine._calculate_assist_to_turnover`. -/
def calculate_assist_to_turnover (stats : LivePlayerStats) : Option ℚ :=
  if stats.turnovers = 0 then
    (if 0 < stats.assists then some (stats.assists : ℚ) else none)
  else some (pyRound2 ((stats.assists : ℚ) / stats.turnovers))

/-- Embeds `HalftimeAnalysisEngine._calculate_utilization_rate`. -/
def calculate_utilization_rate (stats : LivePlayerStats)
    (team_stats : List LivePlayerStats) : ℚ :=
  if team_stats.isEmpty then 0
  else
    let team_fga := ((team_stats.map (fun p => (p.fg_attempted : ℚ))).sum)
    let team_fta := ((team_stats.map (fun p => (p.ft_attempted : ℚ))).sum)
    let team_tov := ((team_stats.map (fun p => (p.turnovers : ℚ))).sum)
    let team_possessions := team_fga + 0.44 * team_fta + team_tov
    if team_possessions = 0 then 0
    else
      let player_possessions := (stats.fg_attempted : ℚ) + 0.44 * stats.ft_attempted + stats.turnovers
      player_possessions / team_possessions * 100

/-- Embeds `HalftimeAnalysisEngine._calculate_pace_factor` (the callers
always leave `first_half_minutes` at its default `24.0`). -/
def calculate_pace_factor (game_data : LiveGameData) (first_half_minutes : ℚ) : ℚ :=
  if first_half_minutes ≤ 0 then 1
  else
    let points_per_min := (game_data.total_score : ℚ) / first_half_minutes
    let expected_ppm := LEAGUE_AVG_TOTAL / 48
    if 0 < expected_ppm then points_per_min / expected_ppm else 1

/-- Embeds `HalftimeAnalysisEngine._calculate_plus_minus_factor`. -/
def calculate_plus_minus_factor (plus_minus : ℤ) (minutes : ℚ) : ℚ :=
  if minutes ≤ 0 then 1
  else max 0.85 (min 1.15 (1 + (plus_minus : ℚ) / minutes * 0.02))

/-- Embeds `HalftimeAnalysisEngine._get_opponent_def_adjustment` (the
`prop_type` argument is unused by the code). -/
def get_opponent_def_adjustment (opponent_def_rank : ℕ) (_prop_type : String) : ℚ :=
  if opponent_def_rank ≤ 5 then 0.90
  else if opponent_def_rank ≤ 10 then 0.95
  else if opponent_def_rank ≤ 20 then 1
  else if opponent_def_rank ≤ 25 then 1.05
  else 1.10

/-- Embeds `HalftimeAnalysisEngine._get_shooting_efficiency_factor`. -/
def get_shooting_efficiency_factor (shooting : ShootingMetrics) (prop_type : String) : ℚ :=
  if prop_type = "points" then
    if 70 ≤ shooting.ts_pct then 1.12
    else if 60 ≤ shooting.ts_pct then 1.08
    else if 55 ≤ shooting.ts_pct then 1.04
    else if 45 ≤ shooting.ts_pct then 1
    else if 35 ≤ shooting.ts_pct then 0.95
    else 0.90
  else if prop_type = "threes" ∨ prop_type = "3pt" then
    if 50 ≤ shooting.fg3_pct then 1.10
    else if 40 ≤ shooting.fg3_pct then 1.05
    else if 33 ≤ shooting.fg3_pct then 1
    else if 20 ≤ shooting.fg3_pct then 0.95
    else 0.90
  else
    if 55 ≤ shooting.ts_pct then 1.02 else 1

/-- Embeds `HalftimeAnalysisEngine._detect_foul_trouble`. -/
def detect_foul_trouble (fouls : ℕ) (minutes : ℚ) : Bool :=
  if FOUL_TROUBLE_THRESHOLD ≤ fouls then true
  else if 0 < minutes ∧ (0.125 : ℚ) < (fouls : ℚ) / minutes then true
  else false

/-- Embeds `HalftimeAnalysisEngine._detect_blowout`. -/
def detect_blowout (score_diff : ℤ) : Bool :=
  if BLOWOUT_THRESHOLD ≤ |score_diff| then true else false

/-- Embeds `HalftimeAnalysisEngine._get_fatigue_factor` (callers always
leave `rest_days` at its default `1`). -/
def get_fatigue_factor (is_back_to_back : Bool) (rest_days : ℕ) : ℚ :=
  if is_back_to_back then 0.92
  else if 3 ≤ rest_days then 1.02
  else 1

/-- Embeds `HalftimeAnalysisEngine._calculate_minutes_projection`. -/
def calculate_minutes_projection (first_half_minutes : ℚ)
    (foul_trouble blowout_warning is_starter : Bool) : ℚ :=
  let base1 := first_half_minutes
  let base2 := if foul_trouble then base1 * 0.75 else base1
  let base3 :=
    if blowout_warning then (if is_starter then base2 * 0.70 else base2 * 1.15)
    else base2
  min base3 24

/-- Embeds `HalftimeAnalysisEngine._calculate_shot_volume_factor`. -/
def calculate_shot_volume_factor (fg_attempted ft_attempted : ℕ) (minutes : ℚ)
    (prop_type : String) : ℚ :=
  if minutes ≤ 0 then 1
  else
    let shots_per_min := ((fg_attempted : ℚ) + (ft_attempted : ℚ) * 0.44) / minutes
    if prop_type = "points" then
      if 1 ≤ shots_per_min then 1.15
      else if 0.75 ≤ shots_per_min then 1.10
      else if 0.5 ≤ shots_per_min then 1.05
      else if 0.3 ≤ shots_per_min then 1
      else 0.90
    else
      if 0.75 ≤ shots_per_min then 1.05
      else if 0.4 ≤ shots_per_min then 1
      else 0.95

/-- Models `components[key]` lookups on the projection-component
dictionary (all keys occurring in `PROJECTION_WEIGHTS` are present
whenever the dictionary is built). -/
def component_val (components : List (String × ℚ)) (key : String) : ℚ :=
  (components.lookup key).getD 0

/-- Embeds `HalftimeAnalysisEngine._calculate_second_half_projection`
(returns the pair of the weighted projection, floored at 0, and the
component dictionary; the dictionary is empty in the no-minutes early
return). -/
def calculate_second_half_projection
    (first_half_value first_half_minutes projected_minutes pace_factor
      utilization_rate fatigue_factor : ℚ)
    (historical_2h_avg : Option ℚ) (blowout_warning : Bool)
    (shooting_metrics : ShootingMetrics) (plus_minus : ℤ)
    (opponent_def_rank : ℕ) (prop_type : String)
    (fg_attempted ft_attempted : ℕ) (score_differential : ℤ) : ℚ × List (String × ℚ) :=
  if first_half_minutes ≤ 0 then
    ((if optTruthy historical_2h_avg then historical_2h_avg.getD 0 else 0), [])
  else
    let first_half_rate := first_half_value / first_half_minutes
    let first_half_trend := first_half_rate * projected_minutes
    let shooting_factor := get_shooting_efficiency_factor shooting_metrics prop_type
    let shot_volume_factor :=
      calculate_shot_volume_factor fg_attempted ft_attempted first_half_minutes prop_type
    let opp_def_factor := get_opponent_def_adjustment opponent_def_rank prop_type
    let score_situation :=
      if blowout_warning then first_half_trend * 0.75
      else if |score_differential| ≤ 5 then first_half_trend * 1.08
      else if |score_differential| ≤ 10 then first_half_trend * 1.03
      else first_half_trend
    let historical_component :=
      if optTruthy historical_2h_avg then historical_2h_avg.getD 0 * (projected_minutes / 24)
      else first_half_trend
    let pm_factor := calculate_plus_minus_factor plus_minus first_half_minutes
    let utilization_multiplier :=
      if 30 < utilization_rate then 0.90 + (30 - utilization_rate) * 0.01
      else if utilization_rate < 15 then 1.05
      else 1
    let components : List (String × ℚ) :=
      [("first_half_trend", first_half_trend),
       ("shooting_efficiency", first_half_trend * shooting_factor),
       ("shot_volume", first_half_trend * shot_volume_factor),
       ("opponent_defense", first_half_trend * opp_def_factor),
       ("score_situation", score_situation),
       ("historical_2h_avg", historical_component),
       ("pace_adjustment", first_half_trend * pace_factor * PACE_SUSTAINABILITY),
       ("plus_minus_factor", first_half_trend * pm_factor),
       ("utilization_rate", first_half_trend * utilization_multiplier),
       ("fatigue_factor", first_half_trend * fatigue_factor)]
    let projected := (PROJECTION_WEIGHTS.map (fun kv => component_val components kv.1 * kv.2)).sum
    (max 0 projected, components)

/-- The recommendation classification at the end of
`HalftimeAnalysisEngine._calculate_confidence_score`, a function of the
distance of the projection from the line and of the clipped confidence. -/
def halftime_recommendation (distance confidence : ℚ) : String :=
  if 0 < distance then
    if 75 ≤ confidence then "strong_bet"
    else if 65 ≤ confidence then "bet"
    else if 55 ≤ confidence then "lean"
    else if 45 ≤ confidence then "neutral"
    else "avoid"
  else
    if confidence ≤ 25 then "strong_avoid"
    else if confidence ≤ 35 then "avoid"
    else if confidence ≤ 45 then "neutral"
    else "lean"

/-- Embeds `HalftimeAnalysisEngine._calculate_confidence_score` (returns
the pair of the clipped confidence and the recommendation). -/
def calculate_confidence_score
    (projected_final prop_line first_half_value historical_consistency : ℚ)
    (shooting_metrics : ShootingMetrics) (foul_trouble blowout_warning : Bool)
    (utilization_rate : ℚ) (plus_minus : ℤ) (opponent_def_rank : ℕ)
    (assist_to_turnover : Option ℚ) : ℚ × String :=
  let distance := projected_final - prop_line
  let distance_pct := if 0 < prop_line then distance / prop_line * 100 else 0
  let progress_pct := if 0 < prop_line then first_half_value / prop_line * 100 else 0
  let distance_adj : ℚ :=
    if 20 < |distance_pct| then (if 0 < distance then 20 else -20)
    else if 10 < |distance_pct| then (if 0 < distance then 12 else -12)
    else if 5 < |distance_pct| then (if 0 < distance then 6 else -6)
    else 0
  let progress_adj : ℚ :=
    if 60 ≤ progress_pct then 18
    else if 50 ≤ progress_pct then 10
    else if 40 ≤ progress_pct then 4
    else if progress_pct < 30 then -8
    else 0
  let shooting_adj : ℚ :=
    if 65 ≤ shooting_metrics.ts_pct then 10
    else if 55 ≤ shooting_metrics.ts_pct then 6
    else if 45 ≤ shooting_metrics.ts_pct then 2
    else if shooting_metrics.ts_pct < 35 then -6
    else 0
  let plus_minus_adj : ℚ :=
    if 10 ≤ plus_minus then 8
    else if 5 ≤ plus_minus then 4
    else if plus_minus ≤ -10 then -6
    else if plus_minus ≤ -5 then -3
    else 0
  let opponent_adj : ℚ :=
    if 25 ≤ opponent_def_rank then 6
    else if 20 ≤ opponent_def_rank then 3
    else if opponent_def_rank ≤ 5 then -6
    else if opponent_def_rank ≤ 10 then -3
    else 0
  let a2t_adj : ℚ :=
    match assist_to_turnover with
    | none => 0
    | some r =>
      if 3 ≤ r then 4
      else if 2 ≤ r then 2
      else if r < 1 then -2
      else 0
  let consistency_adj : ℚ :=
    if 70 < historical_consistency then 4
    else if historical_consistency < 30 then -4
    else 0
  let foul_adj : ℚ := if foul_trouble then -10 else 0
  let blowout_adj : ℚ := if blowout_warning then -12 else 0
  let utilization_adj : ℚ := if 35 < utilization_rate then -4 else 0
  let raw := 50 + distance_adj + progress_adj + shooting_adj + plus_minus_adj +
    opponent_adj + a2t_adj + consistency_adj + foul_adj + blowout_adj + utilization_adj
  let confidence := max 0 (min 100 raw)
  (confidence, halftime_recommendation distance confidence)

/-- Embeds `HalftimeAnalysisEngine._get_opponent_def_rank_for_stat`. -/
def get_opponent_def_rank_for_stat (opp_ratings : TeamRatings) (prop_type : String) : ℕ :=
  if prop_type = "points" then opp_ratings.def_rank_pts
  else if prop_type = "rebounds" then opp_ratings.def_rank_reb
  else if prop_type = "assists" then opp_ratings.def_rank_ast
  else if prop_type = "threes" ∨ prop_type = "3pt" then opp_ratings.def_rank_3pm
  else 15

/-- The `shooting_metrics` dictionary stored on a `PlayerProjection`
(the five rounded percentages plus the categorical rating). -/
structure ShootingDump where
  fg_pct : ℚ
  fg3_pct : ℚ
  ft_pct : ℚ
  efg_pct : ℚ
  ts_pct : ℚ
  efficiency_rating : String

/-- Mirror of the dataclass `PlayerProjection`. -/
structure PlayerProjection where
  player_id : ℕ
  player_name : String
  team_abbreviation : String
  prop_type : String
  prop_line : ℚ
  first_half_value : ℚ
  first_half_minutes : ℚ
  projected_second_half : ℚ
  projected_final : ℚ
  confidence_score : ℚ
  recommendation : String
  factors : List (String × ℚ)
  foul_trouble : Bool
  blowout_warning : Bool
  pace_factor : ℚ
  utilization_rate : ℚ
  fatigue_factor : ℚ
  minutes_projection : ℚ
  shooting_metrics : ShootingDump
  assist_to_turnover : Option ℚ
  opponent_def_rank : ℕ
  opponent_def_rating : ℚ
  team_off_rating : Option ℚ
  season_average : Option ℚ
  second_half_historical_avg : Option ℚ
  plus_minus : ℤ
  shooting_efficiency : ℚ

/-- Embeds `HalftimeAnalysisEngine.analyze_halftime_player`.  The two
collaborator lookups it performs — opponent team ratings and player
season stats — are both wrapped in failure-absorbing handlers in the
source and appear here as `Option`-valued fetch functions. -/
def analyze_halftime_player
    (ratings_fetch : ℕ → Option FetchedTeamRatings)
    (season_fetch : ℕ → Option SeasonStats)
    (live_stats : LivePlayerStats) (prop_line : ℚ) (prop_type : String)
    (game_data : LiveGameData) (team_stats : List LivePlayerStats)
    (opponent_team_id : ℕ) (opponent_abbr : String)
    (team_ratings : Option TeamRatings) (is_back_to_back : Bool) : PlayerProjection :=
  let first_half_value := get_stat_value live_stats prop_type
  let first_half_minutes := live_stats.minutes_float
  let shooting_metrics := calculate_shooting_metrics live_stats
  let assist_to_turnover := calculate_assist_to_turnover live_stats
  let utilization_rate := calculate_utilization_rate live_stats team_stats
  let pace_factor := calculate_pace_factor game_data 24
  let foul_trouble := detect_foul_trouble live_stats.fouls first_half_minutes
  let blowout_warning := detect_blowout game_data.score_differential
  let fatigue_factor := get_fatigue_factor is_back_to_back 1
  let opp_ratings := get_team_ratings ratings_fetch opponent_team_id opponent_abbr
  let opponent_def_rank := get_opponent_def_rank_for_stat opp_ratings prop_type
  let season_stats := season_fetch live_stats.player_id
  let season_avg : Option ℚ :=
    match season_stats with
    | none => none
    | some s =>
      if prop_type = "points" then s.avg_points
      else if prop_type = "rebounds" then s.avg_rebounds
      else if prop_type = "assists" then s.avg_assists
      else none
  let historical_2h_avg : Option ℚ :=
    match season_stats with
    | none => none
    | some s =>
      if prop_type = "points" then s.second_half_avg_points
      else if prop_type = "rebounds" then s.second_half_avg_rebounds
      else if prop_type = "assists" then s.second_half_avg_assists
      else none
  let minutes_projection :=
    calculate_minutes_projection first_half_minutes foul_trouble blowout_warning live_stats.starter
  let shp :=
    calculate_second_half_projection first_half_value first_half_minutes minutes_projection
      pace_factor utilization_rate fatigue_factor historical_2h_avg blowout_warning
      shooting_metrics live_stats.plus_minus opponent_def_rank prop_type
      live_stats.fg_attempted live_stats.ft_attempted game_data.score_differential
  let projected_second_half := shp.1
  let projected_final := first_half_value + projected_second_half
  let historical_consistency : ℚ := 50
  let cr :=
    calculate_confidence_score projected_final prop_line first_half_value
      historical_consistency shooting_metrics foul_trouble blowout_warning
      utilization_rate live_stats.plus_minus opponent_def_rank assist_to_turnover
  let shot_volume_factor :=
    calculate_shot_volume_factor live_stats.fg_attempted live_stats.ft_attempted
      first_half_minutes prop_type
  let factors : List (String × ℚ) :=
    [("first_half_progress", if 0 < prop_line then first_half_value / prop_line * 100 else 0),
     ("shots_attempted", (live_stats.fg_attempted : ℚ)),
     ("shot_volume_factor", shot_volume_factor),
     ("shooting_ts_pct", shooting_metrics.ts_pct),
     ("shooting_efg_pct", shooting_metrics.efg_pct),
     ("opponent_def_rank", (opponent_def_rank : ℚ)),
     ("opponent_def_adjustment", get_opponent_def_adjustment opponent_def_rank prop_type),
     ("score_differential", (game_data.score_differential : ℚ)),
     ("pace_factor", pace_factor),
     ("plus_minus", (live_stats.plus_minus : ℚ)),
     ("plus_minus_factor", calculate_plus_minus_factor live_stats.plus_minus first_half_minutes),
     ("utilization_rate", utilization_rate),
     ("fatigue_factor", fatigue_factor),
     ("assist_to_turnover", assist_to_turnover.getD 0),
     ("foul_trouble_penalty", if foul_trouble then -10 else 0),
     ("blowout_penalty", if blowout_warning then -12 else 0)]
  { player_id := live_stats.player_id
    player_name := live_stats.player_name
    team_abbreviation := live_stats.team_abbreviation
    prop_type := prop_type
    prop_line := prop_line
    first_half_value := first_half_value
    first_half_minutes := first_half_minutes
    projected_second_half := pyRound1 projected_second_half
    projected_final := pyRound1 projected_final
    confidence_score := pyRound1 cr.1
    recommendation := cr.2
    factors := factors
    foul_trouble := foul_trouble
    blowout_warning := blowout_warning
    pace_factor := pyRound2 pace_factor
    utilization_rate := pyRound1 utilization_rate
    fatigue_factor := fatigue_factor
    minutes_projection := pyRound1 minutes_projection
    shooting_metrics :=
      { fg_pct := shooting_metrics.fg_pct, fg3_pct := shooting_metrics.fg3_pct
        ft_pct := shooting_metrics.ft_pct, efg_pct := shooting_metrics.efg_pct
        ts_pct := shooting_metrics.ts_pct
        efficiency_rating := shooting_metrics.efficiency_rating }
    assist_to_turnover := assist_to_turnover
    opponent_def_rank := opponent_def_rank
    opponent_def_rating := opp_ratings.def_rating
    team_off_rating := team_ratings.map TeamRatings.off_rating
    season_average :=
      if optTruthy season_avg then some (pyRound1 (season_avg.getD 0)) else none
    second_half_historical_avg :=
      if optTruthy historical_2h_avg then some (pyRound1 (historical_2h_avg.getD 0)) else none
    plus_minus := live_stats.plus_minus
    shooting_efficiency := shooting_metrics.ts_pct }

/-- Mirror of the dataclass `GameTotalProjection` (basic variant). -/
structure GameTotalProjection where
  game_id : String
  home_team : String
  away_team : String
  current_total : ℕ
  first_half_total : ℕ
  score_differential : ℤ
  first_half_pace : ℚ
  pace_rating : String
  league_avg_pace_comparison : ℚ
  projected_second_half_total : ℚ
  projected_final_total : ℚ
  projected_q3_total : ℚ
  projected_q4_total : ℚ
  total_confidence : ℚ
  blowout_risk : Bool
  pace_sustainability : ℚ
  home_off_rating : Option ℚ
  home_def_rating : Option ℚ
  away_off_rating : Option ℚ
  away_def_rating : Option ℚ

/-- The local `league_avg_pace_comparison` of `analyze_game_totals`:
first-half points per minute relative to the league-average rate. -/
def basic_pace_comparison (first_half_total : ℕ) : ℚ :=
  ((first_half_total : ℚ) / 24) / (LEAGUE_AVG_TOTAL / 48)

/-- The `pace_rating` banding of `analyze_game_totals`. -/
def basic_pace_rating (cmp : ℚ) : String :=
  if 1.15 ≤ cmp then "very_fast"
  else if 1.05 ≤ cmp then "fast"
  else if 0.95 ≤ cmp then "average"
  else "slow"

/-- The `pace_sustainability` banding of `analyze_game_totals`. -/
def basic_pace_sustainability (cmp : ℚ) : ℚ :=
  if 1.2 ≤ cmp then 0.90
  else if 1.1 ≤ cmp then 0.93
  else if cmp ≤ 0.85 then 1.05
  else PACE_SUSTAINABILITY

/-- The unrounded projected second-half total of `analyze_game_totals`:
first-half total scaled by pace sustainability, damped by `0.92` under
blowout risk. -/
def basic_projected_second_half (first_half_total : ℕ) (blowout_risk : Bool) : ℚ :=
  let base := (first_half_total : ℚ) * basic_pace_sustainability (basic_pace_comparison first_half_total)
  if blowout_risk then base * 0.92 else base

/-- The unrounded projected Q3 total of `analyze_game_totals`. -/
def basic_projected_q3 (second_half_total : ℚ) : ℚ :=
  second_half_total / 2 * Q3_PACE_FACTOR

/-- The unrounded projected Q4 total of `analyze_game_totals`. -/
def basic_projected_q4 (second_half_total : ℚ) : ℚ :=
  second_half_total - basic_projected_q3 second_half_total

/-- The confidence computation of `analyze_game_totals` (lines building
`total_confidence` from the base 60 up to the `[0, 100]` clip). -/
def basic_total_confidence (cmp : ℚ) (blowout_risk : Bool) : ℚ :=
  let c1 : ℚ := 60 +
    (if 0.95 ≤ cmp ∧ cmp ≤ 1.05 then 15
     else if 0.90 ≤ cmp ∧ cmp ≤ 1.10 then 8
     else -10)
  let c2 := if blowout_risk then c1 - 15 else c1
  max 0 (min 100 c2)

/-- Embeds `HalftimeAnalysisEngine.analyze_game_totals` (the `box_score`
argument is unused by the code). -/
def analyze_game_totals (game_data : LiveGameData)
    (_box_score : List LivePlayerStats × List LivePlayerStats)
    (home_ratings away_ratings : Option TeamRatings) : GameTotalProjection :=
  let first_half_total := game_data.total_score
  let cmp := basic_pace_comparison first_half_total
  let blowout_risk := detect_blowout game_data.score_differential
  let second_half := basic_projected_second_half first_half_total blowout_risk
  { game_id := game_data.game_id
    home_team := game_data.home_team_abbr
    away_team := game_data.away_team_abbr
    current_total := first_half_total
    first_half_total := first_half_total
    score_differential := game_data.score_differential
    first_half_pace := pyRound2 ((first_half_total : ℚ) / 24)
    pace_rating := basic_pace_rating cmp
    league_avg_pace_comparison := pyRound2 cmp
    projected_second_half_total := pyRound1 second_half
    projected_final_total := pyRound1 ((first_half_total : ℚ) + second_half)
    projected_q3_total := pyRound1 (basic_projected_q3 second_half)
    projected_q4_total := pyRound1 (basic_projected_q4 second_half)
    total_confidence := pyRound1 (basic_total_confidence cmp blowout_risk)
    blowout_risk := blowout_risk
    pace_sustainability := pyRound2 (basic_pace_sustainability cmp)
    home_off_rating := home_ratings.map TeamRatings.off_rating
    home_def_rating := home_ratings.map TeamRatings.def_rating
    away_off_rating := away_ratings.map TeamRatings.off_rating
    away_def_rating := away_ratings.map TeamRatings.def_rating }

/-- One entry of the ranked suggestion list built by
`get_halftime_analysis`. -/
structure Suggestion where
  player_name : String
  team_abbreviation : String
  prop_type : String
  prop_line : ℚ
  current_value : ℚ
  projected_final : ℚ
  confidence_score : ℚ
  recommendation : String
  edge : ℚ
  risk_level : String
  key_factors : List String

/-- The `key_factors` strings attached to a suggestion. -/
def key_factors_of (a : PlayerProjection) : List String :=
  (if 50 ≤ component_val a.factors "first_half_progress" then ["Strong 1H progress"] else []) ++
  (if 60 ≤ a.shooting_metrics.ts_pct then
    ["Hot shooting (" ++ fmt0 a.shooting_metrics.ts_pct ++ "% TS)"] else []) ++
  (if 8 ≤ a.plus_minus then ["+" ++ toString a.plus_minus ++ " plus/minus"] else []) ++
  (if a.opponent_def_rank ≠ 0 ∧ 25 ≤ a.opponent_def_rank then ["Weak opponent defense"] else []) ++
  (if (1.1 : ℚ) ≤ a.pace_factor then ["Fast pace game"] else []) ++
  (if a.foul_trouble then ["Warning: Foul trouble"] else []) ++
  (if a.blowout_warning then ["Warning: Blowout risk"] else [])

/-- The suggestion record built by `get_halftime_analysis` for one
qualifying player analysis. -/
def suggestion_of (a : PlayerProjection) : Suggestion :=
  { player_name := a.player_name
    team_abbreviation := a.team_abbreviation
    prop_type := a.prop_type
    prop_line := a.prop_line
    current_value := a.first_half_value
    projected_final := a.projected_final
    confidence_score := a.confidence_score
    recommendation := a.recommendation
    edge := pyRound1 (a.projected_final - a.prop_line)
    risk_level :=
      if 75 ≤ a.confidence_score then "low"
      else if 65 ≤ a.confidence_score then "medium"
      else "high"
    key_factors := key_factors_of a }

/-- The complete halftime-analysis record returned by
`get_halftime_analysis`.  The wall-clock `analysis_timestamp` is omitted
(it carries no analytical content); the separately-engineered
`enhanced_game_totals` value is passed through generically, since its
producer is invoked inside a failure-absorbing handler. -/
structure HalftimeAnalysisResult (E : Type) where
  game_id : String
  game_info : LiveGameData
  home_ratings : TeamRatings
  away_ratings : TeamRatings
  game_total_analysis : GameTotalProjection
  player_analyses : List PlayerProjection
  suggestions : List Suggestion
  warnings : List String
  enhanced_game_totals : Option E

/-- The per-player, per-prop-type analysis loop of
`get_halftime_analysis` (the body of the double `for` with its two
`continue` guards). -/
def player_analyses_of
    (ratings_fetch : ℕ → Option FetchedTeamRatings)
    (season_fetch : ℕ → Option SeasonStats)
    (game_data : LiveGameData)
    (prop_lines : Option (String → String → Option ℚ))
    (box_home box_away : List LivePlayerStats)
    (home_ratings away_ratings : TeamRatings)
    (home_b2b away_b2b : Bool) : List PlayerProjection :=
  (box_home ++ box_away).flatMap (fun player =>
    if player.minutes_float < 5 then []
    else
      let is_home := player.team_abbreviation == game_data.home_team_abbr
      let is_b2b := if is_home then home_b2b else away_b2b
      let team_stats := if is_home then box_home else box_away
      let opponent_team_id := if is_home then game_data.away_team_id else game_data.home_team_id
      let opponent_abbr := if is_home then game_data.away_team_abbr else game_data.home_team_abbr
      let team_ratings := if is_home then home_ratings else away_ratings
      let player_props : String → Option ℚ :=
        match prop_lines with
        | some pl => pl player.player_name
        | none => fun _ => none
      ["points", "rebounds", "assists"].flatMap (fun prop_type =>
        let prop_line :=
          match player_props prop_type with
          | some l => l
          | none => get_stat_value player prop_type * 2
        if prop_line ≤ 0 then []
        else
          [analyze_halftime_player ratings_fetch season_fetch player prop_line prop_type
            game_data team_stats opponent_team_id opponent_abbr (some team_ratings) is_b2b]))

/-- Embeds `HalftimeAnalysisEngine.get_halftime_analysis`.  All
collaborator reads enter as inputs: `games` is the result of
`get_todays_games`, `box_home`/`box_away` the live box score,
`ratings_fetch` and `season_fetch` the failure-absorbing rating and
season-stat lookups, `home_b2b`/`away_b2b` the back-to-back checks, and
`enhanced_totals` the (`try`/`except`-guarded) result of the advanced
totals engine.  The only exception the function itself raises is the
`ValueError` for an unmatched game id, modelled by `Except.error`. -/
def get_halftime_analysis {E : Type}
    (games : List LiveGameData) (game_id : String)
    (prop_lines : Option (String → String → Option ℚ))
    (box_home box_away : List LivePlayerStats)
    (ratings_fetch : ℕ → Option FetchedTeamRatings)
    (season_fetch : ℕ → Option SeasonStats)
    (home_b2b away_b2b : Bool)
    (enhanced_totals : Option E) : Except String (HalftimeAnalysisResult E) :=
  match games.find? (fun g => g.game_id == game_id) with
  | none => Except.error ("Game " ++ game_id ++ " not found")
  | some game_data =>
    let home_ratings := get_team_ratings ratings_fetch game_data.home_team_id game_data.home_team_abbr
    let away_ratings := get_team_ratings ratings_fetch game_data.away_team_id game_data.away_team_abbr
    let game_total_analysis :=
      analyze_game_totals game_data (box_home, box_away) (some home_ratings) (some away_ratings)
    let player_analyses :=
      player_analyses_of ratings_fetch season_fetch game_data prop_lines
        box_home box_away home_ratings away_ratings home_b2b away_b2b
    let qualifying := player_analyses.filter (fun a =>
      if 60 ≤ a.confidence_score ∧
        (a.recommendation = "strong_bet" ∨ a.recommendation = "bet" ∨ a.recommendation = "lean")
      then true else false)
    let suggestions :=
      (qualifying.map suggestion_of).mergeSort
        (fun a b => if b.confidence_score ≤ a.confidence_score then true else false)
    let warnings :=
      (if game_total_analysis.blowout_risk then
        ["Blowout warning: " ++ toString game_data.score_differential ++ " point differential"]
       else []) ++
      (if game_total_analysis.pace_rating == "very_fast" then
        ["Very fast pace - projections may have higher variance"]
       else [])
    Except.ok
      { game_id := game_id
        game_info := game_data
        home_ratings := home_ratings
        away_ratings := away_ratings
        game_total_analysis := game_total_analysis
        player_analyses := player_analyses
        suggestions := suggestions
        warnings := warnings
        enhanced_game_totals := enhanced_totals }

end HalftimeEngine

namespace GameTotalsEngine

/-!
Embedding of `app/core/game_totals_engine.py` (class `GameTotalsEngine`,
called `GameTotalsProjector` in the specification).  The claims bear on
the module constants and on the leaf computations `_project_quarters`,
`_calculate_over_under` (with its variance input) and
`_calculate_total_confidence`; those are embedded here over the data
structures of the module.  Game and player snapshots are shared with the
halftime-engine embedding.
-/

open HalftimeEngine (LiveGameData LivePlayerStats TeamRatings)

def LEAGUE_AVG_PACE : ℚ := 100

def LEAGUE_AVG_TOTAL : ℚ := 225

def LEAGUE_AVG_PPP : ℚ := 1.14

def LEAGUE_AVG_EFG : ℚ := 52.5

def LEAGUE_AVG_TS : ℚ := 57.5

def Q3_PACE_FACTOR : ℚ := 0.91

def Q4_CLOSE_FACTOR : ℚ := 1.06

def Q4_MODERATE_FACTOR : ℚ := 0.98

def Q4_BLOWOUT_FACTOR : ℚ := 0.88

def BLOWOUT_THRESHOLD : ℤ := 20

def CLOSE_GAME_THRESHOLD : ℤ := 8

def MODERATE_LEAD_THRESHOLD : ℤ := 15

def FOUL_TROUBLE_THRESHOLD : ℕ := 3

def SHOOTING_REGRESSION_RATE : ℚ := 0.40

/-- The `TOTALS_WEIGHTS` table (module-level constant). -/
def TOTALS_WEIGHTS : List (String × ℚ) :=
  [("pace_component", 0.30),
   ("shooting_component", 0.25),
   ("star_utilization", 0.20),
   ("game_flow", 0.10),
   ("team_ratings", 0.10),
   ("regression", 0.05)]

/-- Mirror of the team-totals dictionary produced by
`LiveDataClient.aggregate_team_box_score`. -/
structure TeamBoxAggregate where
  total_points : ℕ
  total_rebounds : ℕ
  total_assists : ℕ
  total_steals : ℕ
  total_blocks : ℕ
  total_turnovers : ℕ
  total_fouls : ℕ
  total_fg_made : ℕ
  total_fg_attempted : ℕ
  total_fg3_made : ℕ
  total_fg3_attempted : ℕ
  total_ft_made : ℕ
  total_ft_attempted : ℕ
  total_minutes : ℚ
  team_fg_pct : ℚ
  team_fg3_pct : ℚ
  team_ft_pct : ℚ
  estimated_possessions : ℚ

/-- Embeds `LiveDataClient.aggregate_team_box_score`. -/
def aggregate_team_box_score (players : List LivePlayerStats) : TeamBoxAggregate :=
  let total_fga := (players.map LivePlayerStats.fg_attempted).sum
  let total_fta := (players.map LivePlayerStats.ft_attempted).sum
  let total_tov := (players.map LivePlayerStats.turnovers).sum
  { total_points := (players.map LivePlayerStats.points).sum
    total_rebounds := (players.map LivePlayerStats.rebounds).sum
    total_assists := (players.map LivePlayerStats.assists).sum
    total_steals := (players.map LivePlayerStats.steals).sum
    total_blocks := (players.map LivePlayerStats.blocks).sum
    total_turnovers := total_tov
    total_fouls := (players.map LivePlayerStats.fouls).sum
    total_fg_made := (players.map LivePlayerStats.fg_made).sum
    total_fg_attempted := total_fga
    total_fg3_made := (players.map LivePlayerStats.fg3_made).sum
    total_fg3_attempted := (players.map LivePlayerStats.fg3_attempted).sum
    total_ft_made := (players.map LivePlayerStats.ft_made).sum
    total_ft_attempted := total_fta
    total_minutes := (players.map LivePlayerStats.minutes_float).sum
    team_fg_pct := ((players.map LivePlayerStats.fg_made).sum : ℚ) / max (total_fga : ℚ) 1 * 100
    team_fg3_pct := ((players.map LivePlayerStats.fg3_made).sum : ℚ) /
      max ((players.map LivePlayerStats.fg3_attempted).sum : ℚ) 1 * 100
    team_ft_pct := ((players.map LivePlayerStats.ft_made).sum : ℚ) / max (total_fta : ℚ) 1 * 100
    estimated_possessions := (total_fga : ℚ) + 0.44 * total_fta + (total_tov : ℚ) * 0.96 }

/-- Mirror of the dataclass `PaceAnalysis`. -/
structure PaceAnalysis where
  first_half_possessions_est : ℚ
  possessions_per_48_live : ℚ
  points_per_possession_home : ℚ
  points_per_possession_away : ℚ
  home_season_pace : ℚ
  away_season_pace : ℚ
  matchup_expected_pace : ℚ
  pace_deviation : ℚ
  pace_trend : String
  q1_pace : Option ℚ
  q2_pace : Option ℚ
  transition_rate : ℚ

/-- Mirror of the dataclass `TeamShootingProfile`. -/
structure TeamShootingProfile where
  team_abbr : String
  live_efg_pct : ℚ
  live_ts_pct : ℚ
  live_fg3_rate : ℚ
  live_fg3_pct : ℚ
  live_ft_rate : ℚ
  live_ft_pct : ℚ
  season_efg_pct : ℚ
  season_ts_pct : ℚ
  season_fg3_rate : ℚ
  season_fg3_pct : ℚ
  season_ft_rate : ℚ
  shooting_regression_factor : ℚ
  shooting_variance_level : String

/-- Mirror of the dataclass `StarPlayerImpact`. -/
structure StarPlayerImpact where
  player_name : String
  player_id : ℕ
  team_abbr : String
  first_half_points : ℕ
  first_half_minutes : ℚ
  usage_rate : ℚ
  current_efficiency : ℚ
  foul_trouble : Bool
  foul_count : ℕ
  season_ppg : Option ℚ
  projected_2h_points : ℚ
  projected_2h_minutes : ℚ
  hot_cold_indicator : String
  minutes_risk : String
  impact_on_team_total : ℚ

/-- Mirror of the dataclass `TeamQuarterProjection`. -/
structure TeamQuarterProjection where
  team_abbr : String
  q1_actual : Option ℕ
  q2_actual : Option ℕ
  q3_projected : ℚ
  q4_projected : ℚ
  ot_probability : ℚ
  projected_final_score : ℚ

/-- Mirror of the dataclass `OverUnderRecommendation`. -/
structure OverUnderRecommendation where
  projected_total : ℚ
  projected_range_low : ℚ
  projected_range_high : ℚ
  reference_line : Option ℚ
  edge : ℚ
  edge_pct : ℚ
  recommendation : String
  confidence : ℚ

/-- The Q4 pace factor chosen by `_project_quarters` from the absolute
score differential. -/
def q4_factor_of (diff : ℤ) : ℚ :=
  if BLOWOUT_THRESHOLD ≤ diff then Q4_BLOWOUT_FACTOR
  else if diff ≤ CLOSE_GAME_THRESHOLD then Q4_CLOSE_FACTOR
  else Q4_MODERATE_FACTOR

/-- The split of the remaining projection into combined Q3 and Q4
portions in `_project_quarters` (one branch per game period). -/
def combined_split (projected_remaining : ℚ) (period : ℕ) (q4_factor : ℚ)
    (elapsed_min : ℚ) : ℚ × ℚ :=
  if 4 ≤ period then (0, projected_remaining)
  else if 3 ≤ period then
    let q3_elapsed := elapsed_min - 24
    let q3_remaining_frac := max 0 ((12 - q3_elapsed) / 12)
    let q3_portion :=
      projected_remaining * (q3_remaining_frac * Q3_PACE_FACTOR / (Q3_PACE_FACTOR + q4_factor))
    (q3_portion, projected_remaining - q3_portion)
  else
    let q3_share := Q3_PACE_FACTOR / (Q3_PACE_FACTOR + q4_factor)
    let q4_share := 1 - q3_share
    (projected_remaining * q3_share, projected_remaining * q4_share)

/-- The four unrounded per-team quarter portions computed by
`_project_quarters`. -/
structure QuartersRaw where
  home_q3 : ℚ
  home_q4 : ℚ
  away_q3 : ℚ
  away_q4 : ℚ

/-- The unrounded core of `_project_quarters`: split the combined
remaining projection into Q3/Q4 and then per team by offensive-rating
share. -/
def project_quarters_raw (projected_remaining : ℚ) (game_data : LiveGameData)
    (home_ratings away_ratings : Option TeamRatings)
    (home_agg away_agg : TeamBoxAggregate) (elapsed_min : ℚ) : QuartersRaw :=
  let diff := |game_data.score_differential|
  let q4_factor := q4_factor_of diff
  let cq := combined_split projected_remaining game_data.period q4_factor elapsed_min
  let offs : ℚ × ℚ :=
    match home_ratings, away_ratings with
    | some hr, some ar => (hr.off_rating, ar.off_rating)
    | _, _ =>
      let total := (home_agg.total_points : ℚ) + (away_agg.total_points : ℚ)
      (((home_agg.total_points : ℚ) / max total 1) * 228,
       ((away_agg.total_points : ℚ) / max total 1) * 228)
  let home_share := offs.1 / max (offs.1 + offs.2) 1
  let away_share := 1 - home_share
  { home_q3 := cq.1 * home_share, home_q4 := cq.2 * home_share
    away_q3 := cq.1 * away_share, away_q4 := cq.2 * away_share }

/-- Embeds `GameTotalsEngine._project_quarters` (the rounded per-team
records, with the OT probability from the projected final margin). -/
def project_quarters (projected_remaining : ℚ) (game_data : LiveGameData)
    (home_ratings away_ratings : Option TeamRatings)
    (home_agg away_agg : TeamBoxAggregate) (elapsed_min : ℚ) :
    TeamQuarterProjection × TeamQuarterProjection :=
  let r := project_quarters_raw projected_remaining game_data home_ratings away_ratings
    home_agg away_agg elapsed_min
  let home_proj_final := (game_data.home_score : ℚ) + r.home_q3 + r.home_q4
  let away_proj_final := (game_data.away_score : ℚ) + r.away_q3 + r.away_q4
  let proj_margin := |home_proj_final - away_proj_final|
  let ot_prob := max 0 (min 25 (15 - proj_margin * 2))
  ({ team_abbr := game_data.home_team_abbr
     q1_actual := none, q2_actual := none
     q3_projected := pyRound1 r.home_q3, q4_projected := pyRound1 r.home_q4
     ot_probability := pyRound1 ot_prob
     projected_final_score := pyRound1 home_proj_final },
   { team_abbr := game_data.away_team_abbr
     q1_actual := none, q2_actual := none
     q3_projected := pyRound1 r.away_q3, q4_projected := pyRound1 r.away_q4
     ot_probability := pyRound1 ot_prob
     projected_final_score := pyRound1 away_proj_final })

/-- Embeds `GameTotalsEngine._calculate_variance`. -/
def calculate_variance (pace : PaceAnalysis) (home_s away_s : TeamShootingProfile) : ℚ :=
  let base_variance : ℚ := 4
  let pace_mult := 1 + |pace.pace_deviation| * 0.02
  let shooting_bump := fun (s : TeamShootingProfile) =>
    if s.shooting_variance_level = "extreme_hot" ∨ s.shooting_variance_level = "extreme_cold"
    then (0.15 : ℚ)
    else if s.shooting_variance_level = "hot" ∨ s.shooting_variance_level = "cold" then 0.08
    else 0
  let shooting_mult := 1 + shooting_bump home_s + shooting_bump away_s
  let avg_fg3_rate := (home_s.live_fg3_rate + away_s.live_fg3_rate) / 2
  let three_mult := 1 + max 0 ((avg_fg3_rate - 35) * 0.01)
  base_variance * pace_mult * shooting_mult * three_mult

/-- The reference line chosen in `_calculate_over_under`: the
user-supplied line when truthy, else the season-average-implied total
rounded to the nearest half point. -/
def over_under_line (reference_line : Option ℚ) (season_avg_total : ℚ) : ℚ :=
  if optTruthy reference_line then reference_line.getD 0
  else (pyRound (season_avg_total * 2) : ℚ) / 2

/-- The confidence computation of `_calculate_over_under`. -/
def over_under_confidence (edge : ℚ) (home_s away_s : TeamShootingProfile)
    (pace : PaceAnalysis) : ℚ :=
  let c1 : ℚ := 50 + (if |pace.pace_deviation| < 5 then 10 else 0)
  let c2 := c1 + (if home_s.shooting_variance_level = "normal" then 5 else 0)
    + (if away_s.shooting_variance_level = "normal" then 5 else 0)
  let c3 := c2 + (if 4 < |edge| then 10 else if 2 < |edge| then 5 else 0)
  max 20 (min 90 c3)

/-- The recommendation banding at the end of `_calculate_over_under`. -/
def over_under_recommendation (edge confidence : ℚ) : String :=
  if 4 < edge ∧ 65 ≤ confidence then "strong_over"
  else if 1.5 < edge ∧ 50 ≤ confidence then "lean_over"
  else if edge < -4 ∧ 65 ≤ confidence then "strong_under"
  else if edge < -1.5 ∧ 50 ≤ confidence then "lean_under"
  else "neutral"

/-- Embeds `GameTotalsEngine._calculate_over_under`. -/
def calculate_over_under (projected_total variance : ℚ) (reference_line : Option ℚ)
    (season_avg_total : ℚ) (home_s away_s : TeamShootingProfile)
    (pace : PaceAnalysis) : OverUnderRecommendation :=
  let line := over_under_line reference_line season_avg_total
  let edge := projected_total - line
  let edge_pct := edge / max line 1 * 100
  let confidence := over_under_confidence edge home_s away_s pace
  { projected_total := pyRound1 projected_total
    projected_range_low := pyRound1 (projected_total - variance)
    projected_range_high := pyRound1 (projected_total + variance)
    reference_line := some line
    edge := pyRound1 edge
    edge_pct := pyRound1 edge_pct
    recommendation := over_under_recommendation edge confidence
    confidence := pyRound1 confidence }

/-- Embeds `GameTotalsEngine._calculate_total_confidence`. -/
def calculate_total_confidence (pace : PaceAnalysis)
    (home_s away_s : TeamShootingProfile) (stars : List StarPlayerImpact)
    (blowout_risk is_close : Bool) : ℚ :=
  let c1 : ℚ := 50 +
    (if |pace.pace_deviation| < 5 then 12
     else if |pace.pace_deviation| < 10 then 6
     else -8)
  let shooting_adj := fun (s : TeamShootingProfile) =>
    if s.shooting_variance_level = "normal" then (5 : ℚ)
    else if s.shooting_variance_level = "extreme_hot" ∨ s.shooting_variance_level = "extreme_cold"
    then -6
    else 0
  let c2 := c1 + shooting_adj home_s + shooting_adj away_s
  let foul_trouble_count := (stars.filter (fun s => s.foul_trouble)).length
  let c3 := c2 - foul_trouble_count * 4
  let c4 := if blowout_risk then c3 - 12 else c3
  let c5 := if is_close then c4 - 3 else c4
  max 15 (min 95 c5)

end GameTotalsEngine

/-!
Specification-side definitions used to state the properties, plus
concrete inputs for instantiating theorems with hypotheses.
-/

/-- Specification predicate for one game counting as a hit: the stat
value is strictly greater than the line for direction `over`, strictly
less for direction `under`; a null value never counts. -/
def is_hit (over_under : String) (line : ℚ) (o : Option ℚ) : Bool :=
  match o with
  | none => false
  | some x =>
    if over_under = "over" ∧ line < x then true
    else if over_under = "under" ∧ x < line then true
    else false

/-- The strength ordering on recommendation labels:
`strong_avoid < avoid < neutral < lean < bet < strong_bet`. -/
def rec_rank (r : String) : ℕ :=
  if r = "strong_avoid" then 0
  else if r = "avoid" then 1
  else if r = "neutral" then 2
  else if r = "lean" then 3
  else if r = "bet" then 4
  else if r = "strong_bet" then 5
  else 2

/-- A concrete prop with no resolvable player identity. -/
def sample_prop : AnalysisEngine.PropBetData :=
  { prop_id := 1, player_name := "John Doe", player_id := none
    stat_type := "points", line := 20.5, over_under := "over", opponent_name := none }

/-- A concrete live game snapshot at halftime. -/
def sample_game : HalftimeEngine.LiveGameData :=
  { game_id := "0022400001", game_status := 2, game_status_text := "Halftime"
    period := 2, game_clock := "", home_team_id := 1610612737
    home_team_name := "Hawks", home_team_abbr := "ATL", home_score := 58
    away_team_id := 1610612738, away_team_name := "Celtics", away_team_abbr := "BOS"
    away_score := 55, game_date := "20241025", is_halftime := true }

/-- Both clamp shapes used by the engines stay inside `[0, 100]`:
`min (max x 0) 100` (the `np.clip` shape) and `max lo (min hi x)` for
`0 ≤ lo ≤ hi ≤ 100` (the `max(lo, min(hi, x))` shape). -/
theorem clamp_bounds (lo hi x : ℚ) (h0 : 0 ≤ lo) (hlo : lo ≤ 100) (hhi : hi ≤ 100) :
    0 ≤ max lo (min hi x) ∧ max lo (min hi x) ≤ 100 :=
  ⟨h0.trans (le_max_left _ _), max_le hlo ((min_le_left _ _).trans hhi)⟩

/-- The `np.clip(x, 0, 100)` shape stays inside `[0, 100]`. -/
theorem np_clip_bounds (x : ℚ) : 0 ≤ min (max x 0) 100 ∧ min (max x 0) 100 ≤ 100 :=
  ⟨le_min (le_max_right _ _) (by norm_num), min_le_right _ _⟩

/-- The two portions of the Q3/Q4 split always sum to the projected
remaining points, in every period branch. -/
theorem combined_split_sum (pr : ℚ) (p : ℕ) (q4f em : ℚ) :
    (GameTotalsEngine.combined_split pr p q4f em).1 +
      (GameTotalsEngine.combined_split pr p q4f em).2 = pr := by
  unfold GameTotalsEngine.combined_split
  split_ifs <;> simp <;> ring

/-- The hit-rate loop counts exactly the hits and the non-null games. -/
theorem hit_rate_fold_countP (d : String) (line : ℚ) (games : List (Option ℚ)) :
    ∀ acc : ℕ × ℕ,
      games.foldl (AnalysisEngine.hit_rate_step d line) acc =
        (acc.1 + games.countP (is_hit d line), acc.2 + games.countP Option.isSome) := by
  induction games with
  | nil => intro acc; simp
  | cons g gs ih =>
    intro acc
    rw [List.foldl_cons, ih, List.countP_cons, List.countP_cons]
    cases g with
    | none => simp [AnalysisEngine.hit_rate_step, is_hit]
    | some x =>
      simp only [AnalysisEngine.hit_rate_step, is_hit, Option.isSome]
      split_ifs <;> refine Prod.ext ?_ ?_ <;> simp_all <;> omega

/-- C1: every confidence score produced by the three engines lies in
`[0, 100]`: the prop-analysis confidence
(`AnalysisEngine._calculate_confidence`), the live player-projection
confidence (`HalftimeAnalysisEngine._calculate_confidence_score`), the
basic game-total confidence (`analyze_game_totals`), and the advanced
overall confidence (`GameTotalsEngine._calculate_total_confidence`) are
each clamped into `[0, 100]`. -/
theorem claim_C1_confidence_bounds :
    (∀ (hit_rate : ℚ) (factors : AnalysisEngine.Factors) (avg_stat line : ℚ),
      0 ≤ AnalysisEngine.calculate_confidence hit_rate factors avg_stat line ∧
        AnalysisEngine.calculate_confidence hit_rate factors avg_stat line ≤ 100) ∧
    (∀ (pf pl fh hc : ℚ) (sm : HalftimeEngine.ShootingMetrics) (ft bw : Bool)
        (ur : ℚ) (pm : ℤ) (odr : ℕ) (a2t : Option ℚ),
      0 ≤ (HalftimeEngine.calculate_confidence_score pf pl fh hc sm ft bw ur pm odr a2t).1 ∧
        (HalftimeEngine.calculate_confidence_score pf pl fh hc sm ft bw ur pm odr a2t).1 ≤ 100) ∧
    (∀ (cmp : ℚ) (blowout_risk : Bool),
      0 ≤ HalftimeEngine.basic_total_confidence cmp blowout_risk ∧
        HalftimeEngine.basic_total_confidence cmp blowout_risk ≤ 100) ∧
    (∀ (pace : GameTotalsEngine.PaceAnalysis)
        (hs aws : GameTotalsEngine.TeamShootingProfile)
        (stars : List GameTotalsEngine.StarPlayerImpact) (br ic : Bool),
      0 ≤ GameTotalsEngine.calculate_total_confidence pace hs aws stars br ic ∧
        GameTotalsEngine.calculate_total_confidence pace hs aws stars br ic ≤ 100) := by
  refine ⟨fun hr f a l => ?_, fun pf pl fh hc sm ft bw ur pm odr a2t => ?_,
    fun cmp br => ?_, fun pace hs aws stars br ic => ?_⟩
  · exact np_clip_bounds _
  · exact clamp_bounds 0 100 _ le_rfl (by norm_num) le_rfl
  · exact clamp_bounds 0 100 _ le_rfl (by norm_num) le_rfl
  · exact clamp_bounds 15 95 _ (by norm_num) (by norm_num) (by norm_num)

/-- C2 counterexample: the factor-weight table of the prop analyzer's
confidence adjustment does not sum to `1.0` (its coefficients sum to
`34`). -/
theorem claim_C2_counterexample :
    (AnalysisEngine.factor_weights.map Prod.snd).sum ≠ (1 : ℚ) := by
  norm_num [AnalysisEngine.factor_weights]

/-- C2 (amended): `PROJECTION_WEIGHTS` and `TOTALS_WEIGHTS` have
coefficients summing exactly to `1.0`, while the prop analyzer's
factor-weight table is a point-valued adjustment table whose
coefficients sum to `34`. -/
theorem claim_C2_weight_sums :
    (HalftimeEngine.PROJECTION_WEIGHTS.map Prod.snd).sum = (1 : ℚ) ∧
    (GameTotalsEngine.TOTALS_WEIGHTS.map Prod.snd).sum = (1 : ℚ) ∧
    (AnalysisEngine.factor_weights.map Prod.snd).sum = (34 : ℚ) := by
  refine ⟨?_, ?_, ?_⟩ <;>
    norm_num [HalftimeEngine.PROJECTION_WEIGHTS, GameTotalsEngine.TOTALS_WEIGHTS,
      AnalysisEngine.factor_weights]

/-- C4: the prop analyzer's hit rate equals the number of games whose
stat value satisfies the prop direction against the line (strictly
greater for `over`, strictly less for `under`), divided by the number of
games with a non-null value for that stat, times `100`, and equals `0`
when there are no valid games. -/
theorem claim_C4_hit_rate (games : List (Option ℚ)) (d : String) (line : ℚ) :
    AnalysisEngine.calculate_hit_rate games d line =
      if 0 < games.countP Option.isSome
      then (games.countP (is_hit d line) : ℚ) / (games.countP Option.isSome : ℚ) * 100
      else 0 := by
  unfold AnalysisEngine.calculate_hit_rate
  rw [hit_rate_fold_countP]
  simp

/-- C6: for every non-negative first-half minutes value, the projected
second-half minutes are the first-half minutes times `0.75` under foul
trouble, additionally times `0.70` (starters) or `1.15` (bench) under
blowout, capped at `24.0`. -/
theorem claim_C6_minutes_projection (m : ℚ) (ft bw st : Bool) (_h : 0 ≤ m) :
    HalftimeEngine.calculate_minutes_projection m ft bw st =
      min (m * (if ft then (0.75 : ℚ) else 1) *
        (if bw then (if st then (0.70 : ℚ) else 1.15) else 1)) 24 := by
  cases ft <;> cases bw <;> cases st <;>
    simp [HalftimeEngine.calculate_minutes_projection]

/-- C6 witness: instantiation at `10` first-half minutes with foul
trouble and blowout for a starter. -/
theorem claim_C6_witness :
    (0 : ℚ) ≤ 10 ∧
    HalftimeEngine.calculate_minutes_projection 10 true true true =
      min ((10 : ℚ) * (if true then (0.75 : ℚ) else 1) *
        (if true then (if true then (0.70 : ℚ) else 1.15) else 1)) 24 :=
  ⟨by norm_num, claim_C6_minutes_projection 10 true true true (by norm_num)⟩

/-- C7: `foul_trouble` holds exactly when `fouls ≥ 3` or
(`minutes > 0` and `fouls / minutes > 0.125`), so fouls `3` in `10`
minutes is flagged; `blowout_warning` holds exactly when the absolute
score differential is at least `20`, so `20` is flagged and `19` is
not. -/
theorem claim_C7_risk_flag_thresholds :
    (∀ (fouls : ℕ) (minutes : ℚ),
      HalftimeEngine.detect_foul_trouble fouls minutes = true ↔
        (3 ≤ fouls ∨ (0 < minutes ∧ (0.125 : ℚ) < (fouls : ℚ) / minutes))) ∧
    HalftimeEngine.detect_foul_trouble 3 10 = true ∧
    (∀ d : ℤ, HalftimeEngine.detect_blowout d = true ↔ 20 ≤ |d|) ∧
    HalftimeEngine.detect_blowout 20 = true ∧
    HalftimeEngine.detect_blowout 19 = false := by
  refine ⟨fun fouls minutes => ?_, by decide, fun d => ?_, by decide, by decide⟩
  · simp only [HalftimeEngine.detect_foul_trouble, HalftimeEngine.FOUL_TROUBLE_THRESHOLD]
    split_ifs <;> simp_all
  · simp only [HalftimeEngine.detect_blowout, HalftimeEngine.BLOWOUT_THRESHOLD]
    split_ifs <;> simp_all

/-- C3: when the player identity does not resolve, or when no historical
games are available, `analyze_prop` returns the default analysis —
confidence `50.0`, hit rate `50.0`, average equal to the line,
recommendation `neutral`, with a non-empty explanatory note — and, being
a total function, never raises in these cases. -/
theorem claim_C3_default_analysis (prop : AnalysisEngine.PropBetData)
    (search_result : Option ℕ) (recent_games : List AnalysisEngine.GameRow)
    (opponent_found : Bool) :
    (AnalysisEngine.resolve_player_id prop.player_id search_result = none →
      AnalysisEngine.analyze_prop prop search_result recent_games opponent_found =
        AnalysisEngine.create_default_analysis prop "Player not found in database") ∧
    (∀ pid, AnalysisEngine.resolve_player_id prop.player_id search_result = some pid →
      recent_games = [] →
      AnalysisEngine.analyze_prop prop search_result recent_games opponent_found =
        AnalysisEngine.create_default_analysis prop "No recent game data available") ∧
    (∀ reason : String,
      (AnalysisEngine.create_default_analysis prop reason).confidence_score = 50 ∧
      (AnalysisEngine.create_default_analysis prop reason).hit_rate_last_10 = 50 ∧
      (AnalysisEngine.create_default_analysis prop reason).average_stat = prop.line ∧
      (AnalysisEngine.create_default_analysis prop reason).recommendation = "neutral" ∧
      (AnalysisEngine.create_default_analysis prop reason).analysis_notes =
        "Unable to analyze: " ++ reason ∧
      (AnalysisEngine.create_default_analysis prop reason).analysis_notes ≠ "") := by
  refine ⟨fun h => ?_, fun pid h hg => ?_, fun reason => ⟨rfl, rfl, rfl, rfl, rfl, ?_⟩⟩
  · simp only [AnalysisEngine.analyze_prop, h]
  · simp [AnalysisEngine.analyze_prop, h, hg]
  · intro hempty
    have h2 := congrArg String.length hempty
    simp only [AnalysisEngine.create_default_analysis, String.length_append] at h2
    have h3 : ("Unable to analyze: " : String).length = 19 := rfl
    have h4 : ("" : String).length = 0 := rfl
    omega

/-- C3 witness: a concrete prop with an unresolvable player identity
takes the default path, and the default record has the stated fields. -/
theorem claim_C3_witness :
    AnalysisEngine.resolve_player_id sample_prop.player_id none = none ∧
    AnalysisEngine.analyze_prop sample_prop none [] false =
      AnalysisEngine.create_default_analysis sample_prop "Player not found in database" ∧
    (AnalysisEngine.create_default_analysis sample_prop "Player not found in database").confidence_score = 50 :=
  ⟨rfl, (claim_C3_default_analysis sample_prop none [] false).1 rfl,
    ((claim_C3_default_analysis sample_prop none [] false).2.2 "Player not found in database").1⟩

/-- C5: for a fixed betting direction, the recommendation is a
non-decreasing function of the confidence score (in the ordering
`strong_avoid < avoid < neutral < lean < bet < strong_bet`): this holds
for the prop analyzer's direction-independent bands and for each branch
of the live projector's direction-dependent classification. -/
theorem claim_C5_recommendation_monotone :
    (∀ (ou : String) (c1 c2 : ℚ), c1 ≤ c2 →
      rec_rank (AnalysisEngine.generate_recommendation c1 ou) ≤
        rec_rank (AnalysisEngine.generate_recommendation c2 ou)) ∧
    (∀ (d c1 c2 : ℚ), 0 < d → c1 ≤ c2 →
      rec_rank (HalftimeEngine.halftime_recommendation d c1) ≤
        rec_rank (HalftimeEngine.halftime_recommendation d c2)) ∧
    (∀ (d c1 c2 : ℚ), d ≤ 0 → c1 ≤ c2 →
      rec_rank (HalftimeEngine.halftime_recommendation d c1) ≤
        rec_rank (HalftimeEngine.halftime_recommendation d c2)) := by
  refine ⟨fun ou c1 c2 h => ?_, fun d c1 c2 hd h => ?_, fun d c1 c2 hd h => ?_⟩
  · unfold AnalysisEngine.generate_recommendation
    split_ifs <;> first | decide | linarith
  · unfold HalftimeEngine.halftime_recommendation
    rw [if_pos hd, if_pos hd]
    split_ifs <;> first | decide | linarith
  · unfold HalftimeEngine.halftime_recommendation
    rw [if_neg (not_lt.mpr hd), if_neg (not_lt.mpr hd)]
    split_ifs <;> first | decide | linarith

/-- C5 witness: instantiations of the three monotonicity statements at
confidences `40 ≤ 80` for both directions. -/
theorem claim_C5_witness :
    ((40 : ℚ) ≤ 80) ∧ ((0 : ℚ) < 1) ∧ ((-1 : ℚ) ≤ 0) ∧
    rec_rank (AnalysisEngine.generate_recommendation 40 "over") ≤
      rec_rank (AnalysisEngine.generate_recommendation 80 "over") ∧
    rec_rank (HalftimeEngine.halftime_recommendation 1 40) ≤
      rec_rank (HalftimeEngine.halftime_recommendation 1 80) ∧
    rec_rank (HalftimeEngine.halftime_recommendation (-1) 40) ≤
      rec_rank (HalftimeEngine.halftime_recommendation (-1) 80) :=
  ⟨by norm_num, by norm_num, by norm_num,
   claim_C5_recommendation_monotone.1 "over" 40 80 (by norm_num),
   claim_C5_recommendation_monotone.2.1 1 40 80 (by norm_num) (by norm_num),
   claim_C5_recommendation_monotone.2.2 (-1) 40 80 (by norm_num) (by norm_num)⟩

/-- C8: the over/under recommendation follows the stated ordered bands
on the edge (projected total minus reference line) and confidence, and
edge `5.0` with confidence `70` yields `strong_over`. -/
theorem claim_C8_over_under_bands :
    (∀ (pt v : ℚ) (rl : Option ℚ) (sav : ℚ)
        (hs aws : GameTotalsEngine.TeamShootingProfile) (pc : GameTotalsEngine.PaceAnalysis),
      (GameTotalsEngine.calculate_over_under pt v rl sav hs aws pc).recommendation =
        GameTotalsEngine.over_under_recommendation
          (pt - GameTotalsEngine.over_under_line rl sav)
          (GameTotalsEngine.over_under_confidence
            (pt - GameTotalsEngine.over_under_line rl sav) hs aws pc)) ∧
    (∀ e c : ℚ, 4 < e → 65 ≤ c →
      GameTotalsEngine.over_under_recommendation e c = "strong_over") ∧
    (∀ e c : ℚ, 1.5 < e → 50 ≤ c → ¬(4 < e ∧ 65 ≤ c) →
      GameTotalsEngine.over_under_recommendation e c = "lean_over") ∧
    (∀ e c : ℚ, e < -4 → 65 ≤ c →
      GameTotalsEngine.over_under_recommendation e c = "strong_under") ∧
    (∀ e c : ℚ, e < -1.5 → 50 ≤ c → ¬(e < -4 ∧ 65 ≤ c) →
      GameTotalsEngine.over_under_recommendation e c = "lean_under") ∧
    (∀ e c : ℚ, ¬(4 < e ∧ 65 ≤ c) → ¬((1.5 : ℚ) < e ∧ 50 ≤ c) →
      ¬(e < -4 ∧ 65 ≤ c) → ¬(e < -1.5 ∧ 50 ≤ c) →
      GameTotalsEngine.over_under_recommendation e c = "neutral") ∧
    GameTotalsEngine.over_under_recommendation 5 70 = "strong_over" := by
  refine ⟨fun pt v rl sav hs aws pc => rfl, fun e c h1 h2 => ?_, fun e c h1 h2 h3 => ?_,
    fun e c h1 h2 => ?_, fun e c h1 h2 h3 => ?_, fun e c n1 n2 n3 n4 => ?_, by decide⟩
  · unfold GameTotalsEngine.over_under_recommendation
    rw [if_pos ⟨h1, h2⟩]
  · unfold GameTotalsEngine.over_under_recommendation
    rw [if_neg h3, if_pos ⟨h1, h2⟩]
  · unfold GameTotalsEngine.over_under_recommendation
    have n1 : ¬(4 < e ∧ 65 ≤ c) := fun hc => by linarith [hc.1]
    have n2 : ¬((1.5 : ℚ) < e ∧ 50 ≤ c) := fun hc => by linarith [hc.1]
    rw [if_neg n1, if_neg n2, if_pos ⟨h1, h2⟩]
  · unfold GameTotalsEngine.over_under_recommendation
    have n1 : ¬(4 < e ∧ 65 ≤ c) := fun hc => by linarith [hc.1]
    have n2 : ¬((1.5 : ℚ) < e ∧ 50 ≤ c) := fun hc => by linarith [hc.1]
    rw [if_neg n1, if_neg n2, if_neg h3, if_pos ⟨h1, h2⟩]
  · unfold GameTotalsEngine.over_under_recommendation
    rw [if_neg n1, if_neg n2, if_neg n3, if_neg n4]

/-- C8 witness: the strong-over band instantiated at edge `6`,
confidence `80`. -/
theorem claim_C8_witness :
    ((4 : ℚ) < 6) ∧ ((65 : ℚ) ≤ 80) ∧
    GameTotalsEngine.over_under_recommendation 6 80 = "strong_over" :=
  ⟨by norm_num, by norm_num, claim_C8_over_under_bands.2.1 6 80 (by norm_num) (by norm_num)⟩

/-- C9: requesting a halftime analysis for a game id with no matching
live snapshot is the one condition surfaced to the caller as a
not-found failure; when a matching snapshot exists the analysis
completes for every outcome of the season-stat and team-rating fetches
(their failures are the `none` cases of the fetch inputs). -/
theorem claim_C9_game_lookup (E : Type) (games : List HalftimeEngine.LiveGameData)
    (game_id : String) (prop_lines : Option (String → String → Option ℚ))
    (box_home box_away : List HalftimeEngine.LivePlayerStats)
    (ratings_fetch : ℕ → Option HalftimeEngine.FetchedTeamRatings)
    (season_fetch : ℕ → Option HalftimeEngine.SeasonStats)
    (home_b2b away_b2b : Bool) (enhanced : Option E) :
    (games.find? (fun g => g.game_id == game_id) = none →
      HalftimeEngine.get_halftime_analysis games game_id prop_lines box_home box_away
        ratings_fetch season_fetch home_b2b away_b2b enhanced =
        Except.error ("Game " ++ game_id ++ " not found")) ∧
    (∀ gd, games.find? (fun g => g.game_id == game_id) = some gd →
      ∃ r, HalftimeEngine.get_halftime_analysis games game_id prop_lines box_home box_away
        ratings_fetch season_fetch home_b2b away_b2b enhanced = Except.ok r) := by
  constructor
  · intro h
    simp only [HalftimeEngine.get_halftime_analysis, h]
  · intro gd h
    simp only [HalftimeEngine.get_halftime_analysis, h]
    exact ⟨_, rfl⟩

/-- C9 witness: an empty schedule yields the not-found error, and a
matching snapshot yields a completed analysis even when every
season-stat and team-rating fetch fails. -/
theorem claim_C9_witness :
    (List.find? (fun g => g.game_id == "NOPE")
      ([] : List HalftimeEngine.LiveGameData) = none) ∧
    HalftimeEngine.get_halftime_analysis ([] : List HalftimeEngine.LiveGameData) "NOPE"
      none [] [] (fun _ => none) (fun _ => none) false false (none : Option Unit) =
      Except.error "Game NOPE not found" ∧
    (List.find? (fun g => g.game_id == "0022400001") [sample_game] = some sample_game) ∧
    (∃ r, HalftimeEngine.get_halftime_analysis [sample_game] "0022400001"
      none [] [] (fun _ => none) (fun _ => none) false false (none : Option Unit) =
      Except.ok r) := by
  refine ⟨rfl, ?_, rfl, ?_⟩
  · exact (claim_C9_game_lookup Unit [] "NOPE" none [] [] (fun _ => none) (fun _ => none)
      false false none).1 rfl
  · exact (claim_C9_game_lookup Unit [sample_game] "0022400001" none [] []
      (fun _ => none) (fun _ => none) false false none).2 sample_game rfl

/-- C10: quarter-split conservation — in the basic projection the
unrounded Q3 plus Q4 totals equal the projected second-half total and
the projected final equals first-half plus second-half; in the advanced
engine the four unrounded per-team quarter portions always sum to the
projected remaining points, in every period branch. -/
theorem claim_C10_quarter_conservation :
    (∀ second_half : ℚ,
      HalftimeEngine.basic_projected_q3 second_half +
        HalftimeEngine.basic_projected_q4 second_half = second_half) ∧
    (∀ (g : HalftimeEngine.LiveGameData)
        (box : List HalftimeEngine.LivePlayerStats × List HalftimeEngine.LivePlayerStats)
        (hr ar : Option HalftimeEngine.TeamRatings),
      (HalftimeEngine.analyze_game_totals g box hr ar).projected_final_total =
        pyRound1 ((g.total_score : ℚ) +
          HalftimeEngine.basic_projected_second_half g.total_score
            (HalftimeEngine.detect_blowout g.score_differential))) ∧
    (∀ (pr : ℚ) (gd : HalftimeEngine.LiveGameData)
        (hr ar : Option HalftimeEngine.TeamRatings)
        (hagg aagg : GameTotalsEngine.TeamBoxAggregate) (em : ℚ),
      (GameTotalsEngine.project_quarters_raw pr gd hr ar hagg aagg em).home_q3 +
        (GameTotalsEngine.project_quarters_raw pr gd hr ar hagg aagg em).away_q3 +
        ((GameTotalsEngine.project_quarters_raw pr gd hr ar hagg aagg em).home_q4 +
          (GameTotalsEngine.project_quarters_raw pr gd hr ar hagg aagg em).away_q4) = pr) := by
  refine ⟨fun sh => ?_, fun g box hr ar => rfl, fun pr gd hr ar hagg aagg em => ?_⟩
  · simp only [HalftimeEngine.basic_projected_q3, HalftimeEngine.basic_projected_q4,
      HalftimeEngine.Q3_PACE_FACTOR]
    ring
  · have h := combined_split_sum pr gd.period
      (GameTotalsEngine.q4_factor_of |gd.score_differential|) em
    rcases hr with _ | hrv <;> rcases ar with _ | arv <;>
      (unfold GameTotalsEngine.project_quarters_raw; dsimp only; ring_nf; ring_nf at h;
        linarith [h])
